import Mathlib

/-!
Shallow embedding of the organization/membership subsystem of Aerugo
(`src/handlers/organizations.rs`).  The relational store (two tables,
`organizations` and `organization_members`, plus the `users` table the
handlers join against) is modelled as an explicit state record; each
`*_internal` handler becomes a pure function from the state to a result
paired with the successor state.  Timestamps are modelled as integers
(`DB.now` plays the role of `CURRENT_TIMESTAMP`).  The role enumeration
and its policy methods live in `models/organizations.rs`, which is not
part of the sources; those definitions are modelled from the spec and
say so in their doc comments.
-/

/-- The three organization roles, `models/organizations.rs`'s
`OrganizationRole` enum (spec section 3: `Owner | Admin | Member`). -/
inductive OrganizationRole where
  | owner
  | admin
  | member
deriving DecidableEq, Repr

/-- Rank in the spec's total order `Member < Admin < Owner` (section 4.1). -/
def roleRank : OrganizationRole → Nat
  | .member => 0
  | .admin => 1
  | .owner => 2

/-- Modelled from the spec: `models/organizations.rs` is missing; spec
section 9 fixes the text-to-variant mapping used by
`req.role.to_string()` in the handlers. -/
def OrganizationRole.toText : OrganizationRole → String
  | .owner => "owner"
  | .admin => "admin"
  | .member => "member"

/-- Modelled from the spec: `can_manage_organization` of the missing
`models/organizations.rs`; spec section 4.1: true for `Owner`, `Admin`. -/
def can_manage_organization : OrganizationRole → Bool
  | .owner => true
  | .admin => true
  | .member => false

/-- Modelled from the spec: `can_delete_organization` of the missing
`models/organizations.rs`; spec section 4.1: true only for `Owner`. -/
def can_delete_organization : OrganizationRole → Bool
  | .owner => true
  | .admin => false
  | .member => false

/-- Modelled from the spec: `can_manage_members` of the missing
`models/organizations.rs`; spec section 4.1: true for `Owner`, `Admin`. -/
def can_manage_members : OrganizationRole → Bool
  | .owner => true
  | .admin => true
  | .member => false

/-- Modelled from the spec: `can_change_role_to` of the missing
`models/organizations.rs`; spec section 4.1: "An `Admin` may set a target
to `Member` or `Admin`; a `Member` may change no role", and only `Owner`
may assign the `Owner` role. -/
def can_change_role_to : OrganizationRole → OrganizationRole → Bool
  | .owner, _ => true
  | .admin, .owner => false
  | .admin, _ => true
  | .member, _ => false

/-- Modelled from the spec: `can_remove_member` of the missing
`models/organizations.rs`; spec section 4.1: "`Owner` may remove anyone;
`Admin` may remove `Member` only (not `Admin` or `Owner`); `Member` may
remove no one." -/
def can_remove_member : OrganizationRole → OrganizationRole → Bool
  | .owner, _ => true
  | .admin, .member => true
  | .admin, _ => false
  | .member, _ => false

/-- A row of the `organizations` table. -/
structure Organization where
  id : Int
  name : String
  display_name : Option String
  description : Option String
  website_url : Option String
  avatar_url : Option String
  created_at : Int
  updated_at : Int
deriving DecidableEq, Repr

/-- A row of the `organization_members` table.  The `role` column is raw
text in the schema; parsing happens in `get_user_role_in_org`. -/
structure MemberRow where
  id : Int
  organization_id : Int
  user_id : Int
  role : String
  joined_at : Int
  invited_at : Option Int
  invited_by : Option Int
deriving DecidableEq, Repr

/-- The slice of a `users` row the handlers read. -/
structure User where
  id : Int
  username : String
  email : String
deriving DecidableEq, Repr

/-- The relational state the handlers act on, plus the id sequences and
the clock. -/
structure DB where
  orgs : List Organization
  members : List MemberRow
  users : List User
  nextOrgId : Int
  nextMemberId : Int
  now : Int
deriving DecidableEq, Repr

/-- Request body of `create_organization` (fields as used by
`create_org_internal`). -/
structure CreateOrganizationRequest where
  name : String
  display_name : Option String
  description : Option String
  website_url : Option String
deriving DecidableEq, Repr

/-- Request body of `update_organization` (fields as used by
`update_org_internal`). -/
structure UpdateOrganizationRequest where
  display_name : Option String
  description : Option String
  website_url : Option String
  avatar_url : Option String
deriving DecidableEq, Repr

/-- Request body of `add_organization_member`. -/
structure AddMemberRequest where
  email : String
  role : OrganizationRole
deriving DecidableEq, Repr

/-- Request body of `update_member_role`. -/
structure UpdateMemberRequest where
  role : OrganizationRole
deriving DecidableEq, Repr

/-- The member record `get_members_internal` and the member-mutating
handlers return (`OrganizationMember` in the source, a membership row
joined with the matching `users` row). -/
structure OrganizationMember where
  id : Int
  organization_id : Int
  user_id : Int
  role : String
  joined_at : Int
  invited_at : Option Int
  invited_by : Option Int
  username : String
  email : String
deriving DecidableEq, Repr

/-- One constructor per `bail!` / `.context` site of
`src/handlers/organizations.rs`, in the taxonomy of spec section 7
(conflict, forbidden, not-found). -/
inductive OrgError where
  | nameExists
  | insufficientPermsUpdateOrg
  | onlyOwnersDelete
  | organizationNotFound
  | accessDeniedNotMember
  | insufficientPermsAddMembers
  | userNotFound
  | alreadyMember
  | insufficientPermsAssignRole
  | insufficientPermsModifyMember
  | invalidMemberOrPerms
  | insufficientPermsRemoveMember
  | memberNotFound
deriving DecidableEq, Repr

/-- The stored role text of the membership row joining `org_name` and
`user_id`, the row fetched by the query in `get_user_role_in_org`. -/
def stored_role (db : DB) (org_name : String) (user_id : Int) : Option String :=
  match db.orgs.find? (fun o => o.name == org_name) with
  | none => none
  | some o =>
    match db.members.find? (fun m => m.organization_id == o.id && m.user_id == user_id) with
    | none => none
    | some m => some m.role

/-- Text-to-role parsing done in `get_user_role_in_org`: any string other
than "owner"/"admin"/"member" maps to `None`. -/
def parse_role (s : String) : Option OrganizationRole :=
  if s == "owner" then some .owner
  else if s == "admin" then some .admin
  else if s == "member" then some .member
  else none

/-- `get_user_role_in_org`: role of `user_id` in the organization named
`org_name`, `none` when the organization or the membership row is absent
or the stored role text is unrecognised. -/
def get_user_role_in_org (db : DB) (org_name : String) (user_id : Int) :
    Option OrganizationRole :=
  match stored_role db org_name user_id with
  | none => none
  | some s => parse_role s

/-- `create_org_internal`: inside one transaction, reject a duplicate
name, insert the organization row, insert the founding owner membership
(only `organization_id`, `user_id`, `role` are supplied; `joined_at`
defaults to the current time and `invited_at`/`invited_by` stay null),
commit both or neither. -/
def create_org_internal (db : DB) (req : CreateOrganizationRequest)
    (creator_id : Int) : Except OrgError Organization × DB :=
  if (db.orgs.find? (fun o => o.name == req.name)).isSome then
    (.error .nameExists, db)
  else
    let org : Organization :=
      { id := db.nextOrgId, name := req.name, display_name := req.display_name,
        description := req.description, website_url := req.website_url,
        avatar_url := none, created_at := db.now, updated_at := db.now }
    let founder : MemberRow :=
      { id := db.nextMemberId, organization_id := org.id, user_id := creator_id,
        role := "owner", joined_at := db.now, invited_at := none, invited_by := none }
    (.ok org,
      { db with orgs := db.orgs ++ [org], members := db.members ++ [founder],
                nextOrgId := db.nextOrgId + 1, nextMemberId := db.nextMemberId + 1 })

/-- `COALESCE(new, old)` of the UPDATE statement. -/
def coalesce (new old : Option String) : Option String :=
  match new with
  | some v => some v
  | none => old

/-- The SET clause of `update_org_internal`: patch the four optional
metadata fields, advance `updated_at`; `id`, `name`, `created_at` are
untouched. -/
def applyOrgPatch (o : Organization) (req : UpdateOrganizationRequest)
    (now : Int) : Organization :=
  { o with display_name := coalesce req.display_name o.display_name,
           description := coalesce req.description o.description,
           website_url := coalesce req.website_url o.website_url,
           avatar_url := coalesce req.avatar_url o.avatar_url,
           updated_at := now }

/-- `update_org_internal`: actor must pass `can_manage_organization`
(absence of a role counts as no permission), then the UPDATE with
COALESCE patch semantics runs; `fetch_one` turns an empty result into
"Organization not found". -/
def update_org_internal (db : DB) (org_name : String)
    (req : UpdateOrganizationRequest) (user_id : Int) :
    Except OrgError Organization × DB :=
  if !((get_user_role_in_org db org_name user_id).map can_manage_organization).getD false then
    (.error .insufficientPermsUpdateOrg, db)
  else
    match db.orgs.find? (fun o => o.name == org_name) with
    | none => (.error .organizationNotFound, db)
    | some o =>
      (.ok (applyOrgPatch o req db.now),
        { db with orgs := (db.orgs.map
            (fun x => if x.name == org_name then applyOrgPatch x req db.now else x)) })

/-- `delete_org_internal`: actor must pass `can_delete_organization`;
DELETE by name (the schema cascades membership deletion); zero affected
rows is "Organization not found". -/
def delete_org_internal (db : DB) (org_name : String) (user_id : Int) :
    Except OrgError Unit × DB :=
  if !((get_user_role_in_org db org_name user_id).map can_delete_organization).getD false then
    (.error .onlyOwnersDelete, db)
  else
    match db.orgs.find? (fun o => o.name == org_name) with
    | none => (.error .organizationNotFound, db)
    | some o =>
      (.ok (),
        { db with orgs := db.orgs.filter (fun x => !(x.name == org_name)),
                  members := db.members.filter (fun m => !(m.organization_id == o.id)) })

/-- The join of a membership row with its `users` row (inner join: a row
without a matching user is dropped). -/
def joinUser (users : List User) (m : MemberRow) : Option OrganizationMember :=
  match users.find? (fun u => u.id == m.user_id) with
  | none => none
  | some u =>
    some { id := m.id, organization_id := m.organization_id, user_id := m.user_id,
           role := m.role, joined_at := m.joined_at, invited_at := m.invited_at,
           invited_by := m.invited_by, username := u.username, email := u.email }

/-- The SELECT ... ORDER BY om.joined_at ASC query of
`get_members_internal`: the organization's rows joined with `users`,
sorted by `joined_at` ascending. -/
def get_members_rows (db : DB) (org_name : String) : List OrganizationMember :=
  match db.orgs.find? (fun o => o.name == org_name) with
  | none => []
  | some o =>
    ((db.members.filter (fun m => m.organization_id == o.id)).filterMap
        (joinUser db.users)).mergeSort
      (fun a b => a.joined_at ≤ b.joined_at)

/-- `get_members_internal`: when an acting identity is supplied it must
hold some role in the organization; then the ordered member listing. -/
def get_members_internal (db : DB) (org_name : String) (user_id : Option Int) :
    Except OrgError (List OrganizationMember) :=
  match user_id with
  | some uid =>
    if (get_user_role_in_org db org_name uid).isNone then
      .error .accessDeniedNotMember
    else
      .ok (get_members_rows db org_name)
  | none => .ok (get_members_rows db org_name)

/-- `add_member_internal`: inviter must pass `can_manage_members`; the
organization is then fetched (it exists, since the inviter holds a role
in it); the target user is looked up by email ("User not found with that
email"); a duplicate membership is a conflict; otherwise a membership
row is inserted with `invited_by` the inviter and — modelled from the
spec, the schema being outside the sources — `joined_at` and
`invited_at` defaulting to the current time (spec section 4.4:
`invited_by = inviterId`, `invited_at = now`).  The returned record is
built in the handler, not re-read from the store. -/
def add_member_internal (db : DB) (org_name : String) (req : AddMemberRequest)
    (inviter_id : Int) : Except OrgError OrganizationMember × DB :=
  if !((get_user_role_in_org db org_name inviter_id).map can_manage_members).getD false then
    (.error .insufficientPermsAddMembers, db)
  else
    match db.orgs.find? (fun o => o.name == org_name) with
    | none => (.error .organizationNotFound, db)
    | some o =>
      match db.users.find? (fun u => u.email == req.email) with
      | none => (.error .userNotFound, db)
      | some u =>
        if (db.members.find?
              (fun m => m.organization_id == o.id && m.user_id == u.id)).isSome then
          (.error .alreadyMember, db)
        else
          let row : MemberRow :=
            { id := db.nextMemberId, organization_id := o.id, user_id := u.id,
              role := req.role.toText, joined_at := db.now,
              invited_at := some db.now, invited_by := some inviter_id }
          (.ok { id := row.id, organization_id := o.id, user_id := u.id,
                 role := req.role.toText, joined_at := db.now,
                 invited_at := some db.now, invited_by := some inviter_id,
                 username := u.username, email := u.email },
            { db with members := db.members ++ [row],
                      nextMemberId := db.nextMemberId + 1 })

/-- `update_member_role_internal`: both the updater's and the target's
current roles must resolve; the updater must pass `can_change_role_to`
for the requested role and `can_remove_member` against the target's
current role; then the UPDATE runs (no transaction wraps it) and the
updated row joined with `users` is fetched back ("Member not found" when
the join finds nothing). -/
def update_member_role_internal (db : DB) (org_name : String)
    (member_user_id : Int) (req : UpdateMemberRequest) (updater_id : Int) :
    Except OrgError OrganizationMember × DB :=
  match get_user_role_in_org db org_name updater_id,
        get_user_role_in_org db org_name member_user_id with
  | some updater, some _target =>
    if !(can_change_role_to updater req.role) then
      (.error .insufficientPermsAssignRole, db)
    else if !(can_remove_member updater _target) then
      (.error .insufficientPermsModifyMember, db)
    else
      match db.orgs.find? (fun o => o.name == org_name) with
      | none => (.error .organizationNotFound, db)
      | some o =>
        let db' : DB :=
          { db with members := (db.members.map
              (fun m => if m.organization_id == o.id && m.user_id == member_user_id
                        then { m with role := req.role.toText } else m)) }
        match (db'.members.find?
                (fun m => m.organization_id == o.id && m.user_id == member_user_id)).bind
              (joinUser db'.users) with
        | none => (.error .memberNotFound, db')
        | some mem => (.ok mem, db')
  | _, _ => (.error .invalidMemberOrPerms, db)

/-- `remove_member_internal`: self-removal skips the permission check
entirely; otherwise both roles must resolve and the remover must pass
`can_remove_member`; then the DELETE runs, and zero affected rows (the
DELETE then changed nothing) is "Member not found". -/
def remove_member_internal (db : DB) (org_name : String)
    (member_user_id : Int) (remover_id : Int) : Except OrgError Unit × DB :=
  let gate : Except OrgError Unit :=
    if remover_id == member_user_id then .ok ()
    else
      match get_user_role_in_org db org_name remover_id,
            get_user_role_in_org db org_name member_user_id with
      | some remover, some target =>
        if !(can_remove_member remover target) then .error .insufficientPermsRemoveMember
        else .ok ()
      | _, _ => .error .invalidMemberOrPerms
  match gate with
  | .error e => (.error e, db)
  | .ok _ =>
    match db.orgs.find? (fun o => o.name == org_name) with
    | none => (.error .organizationNotFound, db)
    | some o =>
      if db.members.any (fun m => m.organization_id == o.id && m.user_id == member_user_id) then
        (.ok (),
          { db with members := (db.members.filter
              (fun m => !(m.organization_id == o.id && m.user_id == member_user_id))) })
      else
        (.error .memberNotFound, db)

/-! Concrete states used by the witnesses. -/

/-- A fresh store with three registered users and no organizations. -/
def db0 : DB :=
  { orgs := [], members := [],
    users := [{ id := 1, username := "u1", email := "u1@x" },
              { id := 2, username := "u2", email := "u2@x" },
              { id := 3, username := "u3", email := "u3@x" }],
    nextOrgId := 1, nextMemberId := 1, now := 100 }

/-- Request creating the organization "acme". -/
def req0 : CreateOrganizationRequest :=
  { name := "acme", display_name := none, description := none, website_url := none }

/-- The organization row `create_org_internal db0 req0 1` inserts. -/
def orgAcme : Organization :=
  { id := 1, name := "acme", display_name := none, description := none,
    website_url := none, avatar_url := none, created_at := 100, updated_at := 100 }

/-- The state after user 1 creates "acme" in `db0`. -/
def dbAcme : DB :=
  { orgs := [orgAcme],
    members := [{ id := 1, organization_id := 1, user_id := 1, role := "owner",
                  joined_at := 100, invited_at := none, invited_by := none }],
    users := db0.users, nextOrgId := 2, nextMemberId := 2, now := 100 }

/-- `dbAcme` with user 2 also a plain member of "acme". -/
def dbAcme2 : DB :=
  { dbAcme with
    members := dbAcme.members ++
      [{ id := 2, organization_id := 1, user_id := 2, role := "member",
         joined_at := 101, invited_at := some 101, invited_by := some 1 }],
    nextMemberId := 3 }

/-- `dbAcme` with user 2 holding a membership row whose stored role text
"superadmin" is not a recognised role. -/
def dbBadRole : DB :=
  { dbAcme with
    members := dbAcme.members ++
      [{ id := 2, organization_id := 1, user_id := 2, role := "superadmin",
         joined_at := 101, invited_at := some 101, invited_by := some 1 }],
    nextMemberId := 3 }

/-! Helper lemmas shared by the claim theorems. -/

theorem stored_role_some_elim {db : DB} {org_name : String} {u : Int} {s : String}
    (h : stored_role db org_name u = some s) :
    ∃ o m, db.orgs.find? (fun o => o.name == org_name) = some o ∧
      db.members.find? (fun m => m.organization_id == o.id && m.user_id == u) = some m ∧
      m.role = s := by
  unfold stored_role at h
  split at h
  · exact absurd h (by simp)
  · next o horg =>
    split at h
    · exact absurd h (by simp)
    · next m hm =>
      exact ⟨o, m, horg, hm, Option.some.inj h⟩

theorem get_user_role_some_elim {db : DB} {org_name : String} {u : Int}
    {r : OrganizationRole} (h : get_user_role_in_org db org_name u = some r) :
    ∃ s, stored_role db org_name u = some s ∧ parse_role s = some r := by
  unfold get_user_role_in_org at h
  split at h
  · exact absurd h (by simp)
  · next s hs => exact ⟨s, hs, h⟩

theorem get_user_role_none_of_org_absent {db : DB} {org_name : String} (u : Int)
    (h : db.orgs.find? (fun o => o.name == org_name) = none) :
    get_user_role_in_org db org_name u = none := by
  unfold get_user_role_in_org stored_role
  rw [h]

/-- An actor whose role lookup comes back empty is denied every gated
operation, the state untouched. -/
theorem gated_ops_denied {db : DB} {org_name : String} {u : Int}
    (h : get_user_role_in_org db org_name u = none) :
    (∀ req, update_org_internal db org_name req u = (.error .insufficientPermsUpdateOrg, db)) ∧
    delete_org_internal db org_name u = (.error .onlyOwnersDelete, db) ∧
    (∀ req, add_member_internal db org_name req u = (.error .insufficientPermsAddMembers, db)) ∧
    (∀ t req, update_member_role_internal db org_name t req u = (.error .invalidMemberOrPerms, db)) ∧
    (∀ t, t ≠ u → remove_member_internal db org_name t u = (.error .invalidMemberOrPerms, db)) ∧
    get_members_internal db org_name (some u) = .error .accessDeniedNotMember := by
  refine ⟨?_, ?_, ?_, ?_, ?_, ?_⟩
  · intro req; unfold update_org_internal; rw [h]; rfl
  · unfold delete_org_internal; rw [h]; rfl
  · intro req; unfold add_member_internal; rw [h]; rfl
  · intro t req
    unfold update_member_role_internal
    rw [h]
  · intro t hne
    have hbeq : (u == t) = false := by
      simp only [beq_eq_false_iff_ne, ne_eq]
      exact fun e => hne e.symm
    unfold remove_member_internal
    rw [hbeq, h]
    cases get_user_role_in_org db org_name t <;> rfl
  · simp [get_members_internal, h]

/-! Claim theorems. -/

/-- C3 counterexample: at (actingRole, requestedNewRole) = (Member, Member)
the claimed equivalence fails — `Member ≤ Member` in rank and the Owner
side-condition is vacuous, yet `can_change_role_to Member Member` is
`false` (a Member may change no role). -/
theorem C3_counterexample :
    ¬ (can_change_role_to OrganizationRole.member OrganizationRole.member = true ↔
        (roleRank OrganizationRole.member ≤ roleRank OrganizationRole.member ∧
         (OrganizationRole.member = OrganizationRole.owner →
          OrganizationRole.member = OrganizationRole.owner))) := by
  decide

/-- C3 (amended): for every pair of roles, `can_change_role_to` returns
true iff the requested role's rank is at most the acting role's rank,
only an Owner assigns the Owner role, and the acting role is not Member
(a Member may assign no role, not even Member). -/
theorem C3_canChangeRoleTo_matrix (a r : OrganizationRole) :
    can_change_role_to a r = true ↔
      (roleRank r ≤ roleRank a ∧ (r = .owner → a = .owner) ∧ a ≠ .member) := by
  cases a <;> cases r <;> decide

/-- C2: the code does not guard the last Owner.  In the concrete state
`dbAcme2` ("acme" has user 1 as its only `owner` and user 2 as a
`member`), the sole Owner's self-removal succeeds and leaves the
organization with one remaining membership and zero `owner` rows —
the operation the claim requires to be rejected. -/
theorem C2_last_owner_unguarded :
    (remove_member_internal dbAcme2 "acme" 1 1).1 = .ok () ∧
    ((remove_member_internal dbAcme2 "acme" 1 1).2.members.filter
        (fun m => m.organization_id == 1 && m.role == "owner")) = [] ∧
    ((remove_member_internal dbAcme2 "acme" 1 1).2.members.filter
        (fun m => m.organization_id == 1)).length = 1 := by
  refine ⟨rfl, rfl, rfl⟩

/-- C10: self-removal by a user who is not a member of an (existing)
organization skips the permission gate, deletes nothing (the DELETE
matches no row), and ends in "Member not found" — not a permission
failure — with the state unchanged. -/
theorem C10_nonmember_self_removal (db : DB) (org_name : String)
    (o : Organization) (u : Int)
    (horg : db.orgs.find? (fun x => x.name == org_name) = some o)
    (hno : ∀ m ∈ db.members, ¬(m.organization_id = o.id ∧ m.user_id = u)) :
    remove_member_internal db org_name u u = (.error .memberNotFound, db) := by
  unfold remove_member_internal
  have hany : (db.members.any fun m => m.organization_id == o.id && m.user_id == u) = false := by
    rw [List.any_eq_false]
    intro m hm
    simp only [Bool.and_eq_true, beq_iff_eq, not_and]
    intro h1 h2
    exact hno m hm ⟨h1, h2⟩
  simp [horg, hany]

/-- C10 witness: in `db0` (no organization at all would not do — take
`dbAcme`, where "acme" exists), user 3 holds no membership; their
self-removal reports "Member not found" and leaves the state intact. -/
theorem C10_witness :
    remove_member_internal dbAcme "acme" 3 3 = (.error .memberNotFound, dbAcme) := by
  exact C10_nonmember_self_removal dbAcme "acme" orgAcme 3 rfl (by decide)

/-- C6: organization names are unique — after any successful creation,
a second creation with the same name fails with the name-exists conflict
and returns the state unchanged. -/
theorem C6_duplicate_name_conflict (db db1 : DB)
    (req req2 : CreateOrganizationRequest) (c1 c2 : Int) (org : Organization)
    (hname : req2.name = req.name)
    (h1 : create_org_internal db req c1 = (.ok org, db1)) :
    create_org_internal db1 req2 c2 = (.error .nameExists, db1) := by
  unfold create_org_internal at h1 ⊢
  by_cases hex : (db.orgs.find? (fun o => o.name == req.name)).isSome
  · rw [if_pos hex] at h1; simp at h1
  · rw [if_neg hex] at h1
    simp only [Prod.mk.injEq, Except.ok.injEq] at h1
    obtain ⟨ha, hb⟩ := h1
    have hfind : (db1.orgs.find? (fun o => o.name == req2.name)).isSome = true := by
      rw [List.find?_isSome]
      refine ⟨org, ?_, ?_⟩
      · rw [← hb, ← ha]
        exact List.mem_append_right _ (List.mem_singleton.mpr rfl)
      · rw [← ha]
        simp [hname]
    rw [if_pos hfind]

/-- C6 witness: creating "acme" a second time on top of `dbAcme` fails
with the conflict and leaves the state unchanged. -/
theorem C6_witness :
    create_org_internal dbAcme req0 2 = (.error .nameExists, dbAcme) := by
  exact C6_duplicate_name_conflict db0 dbAcme req0 req0 1 2 orgAcme rfl rfl

/-- C1: `create_org_internal` is all-or-nothing.  On success the new
organization row is stored together with exactly one membership for its
id — the founder's, with role `owner` and null `invited_at`/`invited_by`;
on any failure the state is returned unchanged.  The hypothesis says the
id sequence is ahead of every stored membership row, which every
reachable store satisfies. -/
theorem C1_create_org_atomic (db : DB) (req : CreateOrganizationRequest)
    (creator : Int)
    (hwf : ∀ m ∈ db.members, m.organization_id < db.nextOrgId) :
    (∀ org db', create_org_internal db req creator = (.ok org, db') →
      org ∈ db'.orgs ∧
      (db'.members.filter (fun m => m.organization_id == org.id)).length = 1 ∧
      (∀ m ∈ db'.members, m.organization_id = org.id →
        m.user_id = creator ∧ m.role = "owner" ∧
        m.invited_at = none ∧ m.invited_by = none)) ∧
    (∀ e db', create_org_internal db req creator = (.error e, db') → db' = db) := by
  constructor
  · intro org db' h
    unfold create_org_internal at h
    by_cases hex : (db.orgs.find? (fun o => o.name == req.name)).isSome
    · rw [if_pos hex] at h; simp at h
    · rw [if_neg hex] at h
      simp only [Prod.mk.injEq, Except.ok.injEq] at h
      obtain ⟨ha, hb⟩ := h
      subst hb
      refine ⟨?_, ?_, ?_⟩
      · rw [← ha]
        exact List.mem_append_right _ (List.mem_singleton.mpr rfl)
      · rw [List.filter_append]
        have hold : (db.members.filter (fun m => m.organization_id == org.id)) = [] := by
          rw [List.filter_eq_nil_iff]
          intro m hm
          simp only [beq_iff_eq, ← ha]
          exact (hwf m hm).ne
        rw [hold]
        simp [← ha]
      · intro m hm hid
        rcases List.mem_append.mp hm with hmem | hmem
        · exact absurd hid (by rw [← ha]; exact (hwf m hmem).ne)
        · rw [List.mem_singleton.mp hmem]
          exact ⟨rfl, rfl, rfl, rfl⟩
  · intro e db' h
    unfold create_org_internal at h
    by_cases hex : (db.orgs.find? (fun o => o.name == req.name)).isSome
    · rw [if_pos hex] at h
      simp only [Prod.mk.injEq] at h
      exact h.2.symm
    · rw [if_neg hex] at h; simp at h

/-- C1 witness: creating "acme" in the fresh store `db0` (whose member
table is empty, so the id-sequence hypothesis holds vacuously) yields a
state whose only membership row for the new organization is the
founder's. -/
theorem C1_witness :
    (dbAcme.members.filter (fun m => m.organization_id == orgAcme.id)).length = 1 := by
  exact ((C1_create_org_atomic db0 req0 1
    (by intro m hm; simp [db0] at hm)).1 orgAcme dbAcme rfl).2.1

/-- C7 counterexample: updating the nonexistent organization "ghost" in
the fresh store `db0` fails with the permission error — the acting user
holds no role in a nonexistent organization, and that check runs first —
not with the organization-not-found error the claim names. -/
theorem C7_counterexample :
    (update_org_internal db0 "ghost"
        { display_name := some "g", description := none,
          website_url := none, avatar_url := none } 1) =
      (.error .insufficientPermsUpdateOrg, db0) ∧
    OrgError.insufficientPermsUpdateOrg ≠ OrgError.organizationNotFound := by
  exact ⟨rfl, by decide⟩

/-- C7 (amended): `update_org_internal` has patch semantics — each absent
field keeps the current value, each present field replaces it, and `id`,
`name`, `created_at` are never changed; updating a nonexistent
organization fails, but with the permission error (the role lookup in it
is empty and the permission gate runs before any existence check), not
with NotFound. -/
theorem C7_update_patch (db : DB) (org_name : String)
    (req : UpdateOrganizationRequest) (uid : Int) :
    (db.orgs.find? (fun o => o.name == org_name) = none →
      update_org_internal db org_name req uid = (.error .insufficientPermsUpdateOrg, db)) ∧
    (∀ res db', update_org_internal db org_name req uid = (.ok res, db') →
      ∃ o, db.orgs.find? (fun x => x.name == org_name) = some o ∧
        res.id = o.id ∧ res.name = o.name ∧ res.created_at = o.created_at ∧
        (req.display_name = none → res.display_name = o.display_name) ∧
        (∀ v, req.display_name = some v → res.display_name = some v) ∧
        (req.description = none → res.description = o.description) ∧
        (∀ v, req.description = some v → res.description = some v) ∧
        (req.website_url = none → res.website_url = o.website_url) ∧
        (∀ v, req.website_url = some v → res.website_url = some v) ∧
        (req.avatar_url = none → res.avatar_url = o.avatar_url) ∧
        (∀ v, req.avatar_url = some v → res.avatar_url = some v) ∧
        db'.members = db.members) := by
  constructor
  · intro hnone
    exact (gated_ops_denied (get_user_role_none_of_org_absent uid hnone)).1 req
  · intro res db' h
    unfold update_org_internal at h
    cases hperm : ((get_user_role_in_org db org_name uid).map can_manage_organization).getD false with
    | false => rw [hperm] at h; simp at h
    | true =>
      rw [hperm] at h
      simp only [Bool.not_true, Bool.false_eq_true, if_false] at h
      split at h
      · simp at h
      · next o horg =>
        simp only [Prod.mk.injEq, Except.ok.injEq] at h
        obtain ⟨ha, hb⟩ := h
        refine ⟨o, horg, ?_⟩
        rw [← ha, ← hb]
        unfold applyOrgPatch coalesce
        cases req.display_name <;> cases req.description <;>
          cases req.website_url <;> cases req.avatar_url <;>
          simp

/-- C7 witness: in `dbAcme`, owner 1 patches only the display name of
"acme"; the resulting row keeps the stored `name`. -/
theorem C7_witness :
    (applyOrgPatch orgAcme
      { display_name := some "Acme Inc", description := none,
        website_url := none, avatar_url := none } 100).name = orgAcme.name := by
  obtain ⟨o, ho, _hid, hname, _⟩ := (C7_update_patch dbAcme "acme"
      { display_name := some "Acme Inc", description := none,
        website_url := none, avatar_url := none } 1).2
      (applyOrgPatch orgAcme
        { display_name := some "Acme Inc", description := none,
          website_url := none, avatar_url := none } 100)
      (update_org_internal dbAcme "acme"
        { display_name := some "Acme Inc", description := none,
          website_url := none, avatar_url := none } 1).2 rfl
  have ho2 : o = orgAcme :=
    Option.some.inj (ho.symm.trans
      (rfl : dbAcme.orgs.find? (fun x => x.name == "acme") = some orgAcme))
  rw [hname, ho2]

/-- C4: self-removal is always permitted — whatever role the member
holds, no policy function is consulted and the membership is deleted;
a removal by someone else fails (state unchanged) when either party's
role is absent or `can_remove_member` denies it, and only otherwise
deletes the target's membership rows. -/
theorem C4_remove_member (db : DB) (org_name : String) (t a : Int) :
    (a = t → ∀ r, get_user_role_in_org db org_name a = some r →
      (remove_member_internal db org_name t a).1 = .ok ()) ∧
    (a ≠ t →
      ((get_user_role_in_org db org_name a = none ∨
        get_user_role_in_org db org_name t = none) →
        remove_member_internal db org_name t a = (.error .invalidMemberOrPerms, db)) ∧
      (∀ ra rt, get_user_role_in_org db org_name a = some ra →
        get_user_role_in_org db org_name t = some rt →
        (can_remove_member ra rt = false →
          remove_member_internal db org_name t a =
            (.error .insufficientPermsRemoveMember, db)) ∧
        (can_remove_member ra rt = true →
          ∃ o, db.orgs.find? (fun x => x.name == org_name) = some o ∧
            remove_member_internal db org_name t a =
              (.ok (), { db with members := (db.members.filter
                  (fun m => !(m.organization_id == o.id && m.user_id == t))) })))) := by
  constructor
  · intro hat r hrole
    subst hat
    obtain ⟨s, hs, _⟩ := get_user_role_some_elim hrole
    obtain ⟨o, m, horg, hmem, _⟩ := stored_role_some_elim hs
    unfold remove_member_internal
    have hany : (db.members.any fun x => x.organization_id == o.id && x.user_id == a) = true := by
      rw [List.any_eq_true]
      refine ⟨m, List.mem_of_find?_eq_some hmem, ?_⟩
      have h2 := List.find?_some hmem
      simpa using h2
    simp [horg, hany]
  · intro hne
    have hbeq : (a == t) = false := beq_eq_false_iff_ne.mpr hne
    constructor
    · intro hcase
      rcases hcase with hnone | hnone
      · exact (gated_ops_denied hnone).2.2.2.2.1 t (fun e => hne e.symm)
      · unfold remove_member_internal
        rw [hbeq, hnone]
        cases get_user_role_in_org db org_name a <;> rfl
    · intro ra rt hra hrt
      constructor
      · intro hcrm
        unfold remove_member_internal
        rw [hbeq, hra, hrt]
        simp [hcrm]
      · intro hcrm
        obtain ⟨s, hs, _⟩ := get_user_role_some_elim hrt
        obtain ⟨o, m, horg, hmem, _⟩ := stored_role_some_elim hs
        refine ⟨o, horg, ?_⟩
        unfold remove_member_internal
        have hany : (db.members.any fun x => x.organization_id == o.id && x.user_id == t) = true := by
          rw [List.any_eq_true]
          refine ⟨m, List.mem_of_find?_eq_some hmem, ?_⟩
          have h2 := List.find?_some hmem
          simpa using h2
        rw [hbeq, hra, hrt]
        simp [hcrm, horg, hany]

/-- C4 witness: in `dbAcme2`, plain member 2 removes themself (no policy
check, succeeds), while member 2 trying to remove owner 1 is refused
with the state unchanged. -/
theorem C4_witness :
    (remove_member_internal dbAcme2 "acme" 2 2).1 = .ok () ∧
    remove_member_internal dbAcme2 "acme" 1 2 =
      (.error .insufficientPermsRemoveMember, dbAcme2) := by
  constructor
  · exact (C4_remove_member dbAcme2 "acme" 2 2).1 rfl .member rfl
  · exact (((C4_remove_member dbAcme2 "acme" 1 2).2 (by decide)).2
      .member .owner rfl rfl).1 rfl

/-- C5: `add_member_internal` demands `can_manage_members` of the
inviter (an absent or insufficient role is refused, state unchanged),
reports the target user missing when no `users` row has the email,
reports a conflict when the membership pair already exists, and
otherwise inserts exactly one membership row carrying
`invited_by = inviter` and `invited_at = now`. -/
theorem C5_add_member (db : DB) (org_name : String) (req : AddMemberRequest)
    (inviter : Int) :
    (get_user_role_in_org db org_name inviter = none →
      add_member_internal db org_name req inviter =
        (.error .insufficientPermsAddMembers, db)) ∧
    (∀ r, get_user_role_in_org db org_name inviter = some r →
      can_manage_members r = false →
      add_member_internal db org_name req inviter =
        (.error .insufficientPermsAddMembers, db)) ∧
    (∀ r, get_user_role_in_org db org_name inviter = some r →
      can_manage_members r = true →
      ∀ o, db.orgs.find? (fun x => x.name == org_name) = some o →
      ((db.users.find? (fun x => x.email == req.email) = none →
        add_member_internal db org_name req inviter = (.error .userNotFound, db)) ∧
       (∀ u, db.users.find? (fun x => x.email == req.email) = some u →
        ((db.members.find?
            (fun m => m.organization_id == o.id && m.user_id == u.id)).isSome = true →
          add_member_internal db org_name req inviter = (.error .alreadyMember, db)) ∧
        (db.members.find?
            (fun m => m.organization_id == o.id && m.user_id == u.id) = none →
          add_member_internal db org_name req inviter =
            (.ok { id := db.nextMemberId, organization_id := o.id, user_id := u.id,
                   role := req.role.toText, joined_at := db.now,
                   invited_at := some db.now, invited_by := some inviter,
                   username := u.username, email := u.email },
             { db with
               members := db.members ++
                 [{ id := db.nextMemberId, organization_id := o.id, user_id := u.id,
                    role := req.role.toText, joined_at := db.now,
                    invited_at := some db.now, invited_by := some inviter }],
               nextMemberId := db.nextMemberId + 1 }))))) := by
  refine ⟨?_, ?_, ?_⟩
  · intro hnone
    exact (gated_ops_denied hnone).2.2.1 req
  · intro r hr hcan
    unfold add_member_internal
    rw [hr]
    simp [hcan]
  · intro r hr hcan o horg
    constructor
    · intro huser
      unfold add_member_internal
      rw [hr]
      simp [hcan, horg, huser]
    · intro u huser
      constructor
      · intro hex
        unfold add_member_internal
        rw [hr]
        simp [hcan, horg, huser, hex]
      · intro hnoex
        unfold add_member_internal
        rw [hr]
        simp [hcan, horg, huser, hnoex]

/-- C5 witness: in `dbAcme`, owner 1 invites user 2 (email "u2@x") as a
member; afterwards the store holds two membership rows. -/
theorem C5_witness :
    (add_member_internal dbAcme "acme"
        { email := "u2@x", role := OrganizationRole.member } 1).2.members.length = 2 := by
  have heq := (((C5_add_member dbAcme "acme"
      { email := "u2@x", role := OrganizationRole.member } 1).2.2
      .owner rfl rfl orgAcme rfl).2 { id := 2, username := "u2", email := "u2@x" } rfl).2 rfl
  rw [heq]
  rfl

/-- C8: for an acting user holding any role, `get_members_internal`
succeeds with the organization's membership rows (joined with `users`)
ordered by `joined_at` ascending — the output is a permutation of the
organization's rows and is sorted — and, being a pure read, calling it
twice with no intervening mutation gives identical output. -/
theorem C8_list_members_sorted (db : DB) (org_name : String) (uid : Int)
    (r : OrganizationRole) (hmem : get_user_role_in_org db org_name uid = some r) :
    get_members_internal db org_name (some uid) = .ok (get_members_rows db org_name) ∧
    List.Pairwise (fun x y => x.joined_at ≤ y.joined_at) (get_members_rows db org_name) ∧
    (∀ o, db.orgs.find? (fun x => x.name == org_name) = some o →
      (get_members_rows db org_name).Perm
        ((db.members.filter (fun m => m.organization_id == o.id)).filterMap
          (joinUser db.users))) ∧
    get_members_internal db org_name (some uid) =
      get_members_internal db org_name (some uid) := by
  refine ⟨?_, ?_, ?_, rfl⟩
  · simp [get_members_internal, hmem]
  · unfold get_members_rows
    split
    · simp
    · next o horg =>
      have htrans : ∀ x y z : OrganizationMember,
          (decide (x.joined_at ≤ y.joined_at)) = true →
          (decide (y.joined_at ≤ z.joined_at)) = true →
          (decide (x.joined_at ≤ z.joined_at)) = true := by
        intro x y z hxy hyz
        simp only [decide_eq_true_eq] at hxy hyz ⊢
        exact le_trans hxy hyz
      have htotal : ∀ x y : OrganizationMember,
          ((decide (x.joined_at ≤ y.joined_at)) ||
           (decide (y.joined_at ≤ x.joined_at))) = true := by
        intro x y
        simp only [Bool.or_eq_true, decide_eq_true_eq]
        exact le_total x.joined_at y.joined_at
      have hs := @List.sorted_mergeSort OrganizationMember
        (fun a b => decide (a.joined_at ≤ b.joined_at)) htrans htotal
        ((db.members.filter (fun m => m.organization_id == o.id)).filterMap
          (joinUser db.users))
      exact hs.imp (fun h => by simpa using h)
  · intro o horg
    unfold get_members_rows
    rw [horg]
    exact List.mergeSort_perm _ _

/-- C8 witness: member listing of "acme" in `dbAcme2` by owner 1
succeeds with the ordered rows. -/
theorem C8_witness :
    get_members_internal dbAcme2 "acme" (some 1) =
      .ok (get_members_rows dbAcme2 "acme") := by
  exact (C8_list_members_sorted dbAcme2 "acme" 1 .owner rfl).1

/-- C9: a membership row whose stored role text is not exactly "owner",
"admin" or "member" makes the role lookup come back empty, so its holder
is refused every permission-gated mutation and the member listing with
the state unchanged — with literally the same outcome any non-member
gets. -/
theorem C9_invalid_role_text (db : DB) (org_name : String) (u : Int) (s : String)
    (hrow : stored_role db org_name u = some s)
    (hbad1 : s ≠ "owner") (hbad2 : s ≠ "admin") (hbad3 : s ≠ "member") :
    get_user_role_in_org db org_name u = none ∧
    (∀ req, update_org_internal db org_name req u =
      (.error .insufficientPermsUpdateOrg, db)) ∧
    delete_org_internal db org_name u = (.error .onlyOwnersDelete, db) ∧
    (∀ req, add_member_internal db org_name req u =
      (.error .insufficientPermsAddMembers, db)) ∧
    (∀ t req, update_member_role_internal db org_name t req u =
      (.error .invalidMemberOrPerms, db)) ∧
    (∀ t, t ≠ u → remove_member_internal db org_name t u =
      (.error .invalidMemberOrPerms, db)) ∧
    get_members_internal db org_name (some u) = .error .accessDeniedNotMember ∧
    (∀ v, get_user_role_in_org db org_name v = none →
      (∀ req, update_org_internal db org_name req v =
        update_org_internal db org_name req u) ∧
      (∀ req, add_member_internal db org_name req v =
        add_member_internal db org_name req u) ∧
      get_members_internal db org_name (some v) =
        get_members_internal db org_name (some u)) := by
  have hparse : parse_role s = none := by
    simp [parse_role, hbad1, hbad2, hbad3]
  have hnone : get_user_role_in_org db org_name u = none := by
    unfold get_user_role_in_org
    rw [hrow]
    exact hparse
  obtain ⟨h1, h2, h3, h4, h5, h6⟩ := gated_ops_denied hnone
  refine ⟨hnone, h1, h2, h3, h4, h5, h6, ?_⟩
  intro v hv
  obtain ⟨g1, _g2, g3, _g4, _g5, g6⟩ := gated_ops_denied hv
  exact ⟨fun req => (g1 req).trans (h1 req).symm,
         fun req => (g3 req).trans (h3 req).symm,
         g6.trans h6.symm⟩

/-- C9 witness: in `dbBadRole`, user 2's stored role text is
"superadmin"; the lookup treats them as a non-member and the member
listing refuses them. -/
theorem C9_witness :
    get_user_role_in_org dbBadRole "acme" 2 = none ∧
    get_members_internal dbBadRole "acme" (some 2) =
      .error .accessDeniedNotMember := by
  have h := C9_invalid_role_text dbBadRole "acme" 2 "superadmin" rfl
    (by decide) (by decide) (by decide)
  exact ⟨h.1, h.2.2.2.2.2.2.1⟩
